import Mathlib

/-!
Verification of the rawpasta-api document store (src/index.js) against its
specification.  The Express/Mongoose server is shallowly embedded: the two
MongoDB collections become Lean lists (list order models MongoDB natural
order, which is what an unsorted `findOne` traverses), each route handler
becomes a pure function from the request data and the current collections to
an `Except` of the error `{statusCode, message}` pair or the success payload,
and the random generators are parameterised by their stream of random draws.
-/

namespace RawPasta

/-- A stored document, after the `fileSchema` of src/index.js: an `id`
(declared `unique: true`, so the storage layer maintains a unique index on
it), a `fileName` (declared only `required`, with no uniqueness constraint)
and a `fileContent`. -/
structure File where
  id : String
  fileName : String
  fileContent : String
deriving Repr, DecidableEq

/-- A stored API key, after the `apiKeySchema` of src/index.js: the bearer
credential `key` and a formatted `id`, both declared `unique: true`. -/
structure ApiKey where
  key : String
  id : String
deriving Repr, DecidableEq

/-- The uniform error shape produced by `errorHandler`: an HTTP status code
and a message, sent to the client as `{error: message}`. -/
structure ApiError where
  statusCode : Nat
  message : String
deriving Repr, DecidableEq

/-- The two persistent collections of the server. -/
structure ServerState where
  files : List File
  keys : List ApiKey
deriving Repr, DecidableEq

/-! ## JavaScript truthiness helpers

Optional request fields (headers, query parameters, request bodies) are
modelled as `Option String`; JavaScript treats both a missing field
(`undefined`) and the empty string as falsy, which the `jsTruthy` predicate
captures.  An Express optional path parameter, in contrast, is either absent
or a non-empty path segment, so for path parameters plain `Option` matching
models the `if (!x)` guards of the source. -/

/-- JavaScript truthiness of an optional string: `undefined` and `""` are
falsy, every other string is truthy. -/
def jsTruthy : Option String → Bool
  | none => false
  | some s => s ≠ ""

/-- The JavaScript `a || b` on optional strings, as used in
`req.headers.apikey || req.query.apiKey` and the fileName defaulting chain. -/
def jsOrStr (a b : Option String) : Option String :=
  if jsTruthy a then a else b

/-! ## Identifier generation (src/index.js lines 103-123) -/

/-- The alphabet of `generateRandomId`. -/
def characters : String := "ABCDEFGHIJKLMNOPQRSTUVWXYZabcdefghijklmnopqrstuvwxyz"

/-- The function `generateRandomId(length)`: picks `length` characters from `characters`
by random index.  `Math.floor(Math.random() * characters.length)` is an
integer in `[0, characters.length)`, modelled by reducing the i-th draw of
the random stream `rand` modulo the alphabet size. -/
def generateRandomId (length : Nat) (rand : Nat → Nat) : String :=
  String.mk ((List.range length).map
    (fun i => characters.toList.getD (rand i % characters.toList.length) 'A'))

/-- The function `generateFileId()`: a 5-character random id. -/
def generateFileId (rand : Nat → Nat) : String :=
  generateRandomId 5 rand

/-! ## Document store queries -/

/-- The Mongoose query `{ fileName }` used by the upload route: first
document whose `fileName` equals the given name, in natural order. -/
def findOneByFileName (files : List File) (n : String) : Option File :=
  files.find? (fun f => f.fileName == n)

/-- The `$or` predicate `{ $or: [{ id: identifier }, { fileName: identifier }] }`
shared by the raw-read, edit and delete routes. -/
def matchesIdentifier (f : File) (identifier : String) : Bool :=
  f.id == identifier || f.fileName == identifier

/-- The query `File.findOne({ $or: [{id}, {fileName}] })`: first document matching the
identifier by id or by name, in natural order. -/
def findOneByIdentifier (files : List File) (identifier : String) : Option File :=
  files.find? (fun f => matchesIdentifier f identifier)

/-- The call `newFile.save()`: MongoDB enforces the unique index that Mongoose builds
for the `unique: true` declaration on `id`, so inserting a duplicate id
fails with a driver-level duplicate-key error, which `errorHandler` maps to
status 500 (the thrown error carries no `statusCode`).  `fileName` carries
no such index, so no name check happens here. -/
def saveFile (files : List File) (f : File) : Except ApiError (List File) :=
  if files.any (fun g => g.id == f.id) then
    .error ⟨500, "E11000 duplicate key error"⟩
  else
    .ok (files ++ [f])

/-- The call `newApiKey.save()`: both `key` and `id` are declared `unique: true`. -/
def saveKey (keys : List ApiKey) (k : ApiKey) : Except ApiError (List ApiKey) :=
  if keys.any (fun a => a.key == k.key || a.id == k.id) then
    .error ⟨500, "E11000 duplicate key error"⟩
  else
    .ok (keys ++ [k])

/-! ## Authentication gate (src/index.js lines 86-101) -/

/-- The `authenticate` middleware: reads the credential from the `apikey`
header, falling back to the `apiKey` query parameter; a falsy credential is
rejected with 401 "API key is required", a credential matching no stored
record's `key` with 401 "Invalid API key".  `none` means the gate called
`next()` and the protected handler runs. -/
def authenticate (keys : List ApiKey) (headerKey queryKey : Option String) :
    Option ApiError :=
  match jsOrStr headerKey queryKey with
  | none => some ⟨401, "API key is required"⟩
  | some k =>
    if k = "" then some ⟨401, "API key is required"⟩
    else if (keys.find? (fun a => a.key == k)).isSome then none
    else some ⟨401, "Invalid API key"⟩

/-- A protected route as composed by Express: the gate runs first and a gate
failure short-circuits the handler, so the state is returned untouched. -/
def applyProtected (st : ServerState) (headerKey queryKey : Option String)
    (op : ServerState → ServerState) : ServerState :=
  match authenticate st.keys headerKey queryKey with
  | some _ => st
  | none => op st

/-! ## Upload (src/index.js lines 233-260) -/

/-- The body of the upload handler after the request fields are read:
`findOne({fileName})`, then 409 when a document exists and `overwrite` is
false, otherwise `save` of a fresh record built from the generated
`fileId`.  On success the handler answers `{ id: fileId }`. -/
def uploadOp (files : List File) (fileName : String) (overwrite : Bool)
    (fileContent fileId : String) : Except ApiError (List File × String) :=
  if (findOneByFileName files fileName).isSome && !overwrite then
    .error ⟨409, "File name already exists"⟩
  else
    match saveFile files ⟨fileId, fileName, fileContent⟩ with
    | .error e => .error e
    | .ok fs => .ok (fs, fileId)

/-- The full upload route: 400 without an uploaded file, then
`req.query.fileName || req.body.fileName || generateRandomId(22)` and
`req.query.overwrite === 'true'`. -/
def uploadRoute (files : List File) (file : Option String)
    (queryFileName bodyFileName overwriteParam : Option String)
    (rand : Nat → Nat) (defaultRand : Nat → Nat) :
    Except ApiError (List File × String) :=
  match file with
  | none => .error ⟨400, "No file uploaded"⟩
  | some fileContent =>
    match jsOrStr (jsOrStr queryFileName bodyFileName)
        (some (generateRandomId 22 defaultRand)) with
    | none => .error ⟨500, "Internal Server Error"⟩
    | some fileName =>
      uploadOp files fileName (overwriteParam == some "true") fileContent
        (generateFileId rand)

/-- The files collection after an upload: unchanged when the handler
errored. -/
def uploadStore (files : List File) (fileName : String) (overwrite : Bool)
    (fileContent fileId : String) : List File :=
  match uploadOp files fileName overwrite fileContent fileId with
  | .ok (fs, _) => fs
  | .error _ => files

/-! ## Raw read (src/index.js lines 262-290) -/

/-- One character of `JSON.stringify` string escaping, as performed by
Express's `res.json` on a string payload. -/
def jsonEscapeChar (ch : Char) : String :=
  if ch = '"' then "\\\""
  else if ch = '\\' then "\\\\"
  else if ch = Char.ofNat 8 then "\\b"
  else if ch = Char.ofNat 12 then "\\f"
  else if ch = '\n' then "\\n"
  else if ch = Char.ofNat 13 then "\\r"
  else if ch = '\t' then "\\t"
  else if ch.toNat < 32 then
    "\\u00" ++ String.singleton ("0123456789abcdef".toList.getD (ch.toNat / 16) '0')
      ++ String.singleton ("0123456789abcdef".toList.getD (ch.toNat % 16) '0')
  else String.singleton ch

/-- The encoding `JSON.stringify` applies to a string: the escaped characters wrapped in double
quotes.  This is the body `res.json(s)` sends for a string `s`. -/
def jsonEncodeString (s : String) : String :=
  "\"" ++ String.join (s.toList.map jsonEscapeChar) ++ "\""

/-- The raw-read route: 400 without an identifier, 404 when the `$or`
lookup misses, otherwise `res.json(file.fileContent)` — the response body is
the JSON string encoding of the stored content. -/
def rawReadRoute (files : List File) (identifier : Option String) :
    Except ApiError String :=
  match identifier with
  | none => .error ⟨400, "Identifier is required"⟩
  | some ident =>
    match findOneByIdentifier files ident with
    | none => .error ⟨404, "File not found"⟩
    | some f => .ok (jsonEncodeString f.fileContent)

/-! ## Listings (src/index.js lines 223-231 and 292-300) -/

/-- The projection `'key id'` of the list-keys route: both fields of every
stored key are included in the response. -/
structure KeyListing where
  key : String
  id : String
deriving Repr, DecidableEq

/-- The projection `'id fileName'` of the list route: the content field is
projected away. -/
structure FileListing where
  id : String
  fileName : String
deriving Repr, DecidableEq

/-- The query `ApiKey.find({}, 'key id')`. -/
def listKeysOp (keys : List ApiKey) : List KeyListing :=
  keys.map (fun k => ⟨k.key, k.id⟩)

/-- The query `File.find({}, 'id fileName')`. -/
def listFilesOp (files : List File) : List FileListing :=
  files.map (fun f => ⟨f.id, f.fileName⟩)

/-! ## Edit (src/index.js lines 302-343) -/

/-- The call `File.findOneAndUpdate({$or}, {fileContent})`: the first document
matching the identifier has its content replaced, every other document is
kept as it is. -/
def updateFirst : List File → String → String → List File
  | [], _, _ => []
  | f :: fs, ident, c =>
    if matchesIdentifier f ident then { f with fileContent := c } :: fs
    else f :: updateFirst fs ident c

/-- The edit route: 400 without an identifier, 400 without an uploaded
file, 404 when `findOneAndUpdate` matched nothing, otherwise the first
matching document's content is replaced and the handler answers
`{message: 'File updated successfully'}`. -/
def editRoute (files : List File) (identifier file : Option String) :
    Except ApiError (List File × String) :=
  match identifier with
  | none => .error ⟨400, "Identifier is required"⟩
  | some ident =>
    match file with
    | none => .error ⟨400, "File is required"⟩
    | some fileContent =>
      match findOneByIdentifier files ident with
      | none => .error ⟨404, "File not found"⟩
      | some _ => .ok (updateFirst files ident fileContent, "File updated successfully")

/-- The files collection after an edit request: unchanged when the handler
errored. -/
def editStore (files : List File) (identifier file : Option String) : List File :=
  match editRoute files identifier file with
  | .ok (fs, _) => fs
  | .error _ => files

/-! ## Delete (src/index.js lines 345-376) -/

/-- The delete route resolves by the `$or` query and then removes exactly
the resolved record by its internal `_id`: the first match is removed. -/
def removeFirst : List File → String → List File
  | [], _ => []
  | f :: fs, ident =>
    if matchesIdentifier f ident then fs else f :: removeFirst fs ident

/-- The delete route: 400 without an identifier, 404 when the lookup
misses, otherwise the resolved document is removed. -/
def deleteRoute (files : List File) (identifier : Option String) :
    Except ApiError (List File × String) :=
  match identifier with
  | none => .error ⟨400, "Identifier is required"⟩
  | some ident =>
    match findOneByIdentifier files ident with
    | none => .error ⟨404, "File not found"⟩
    | some _ => .ok (removeFirst files ident, "File deleted successfully")

/-! ## OTP validation (src/index.js lines 125-148 and 164-197)

The TOTP computation itself lives in the external `otpauth` dependency; the
spec fixes its contract (6 digits, 30-second step, evaluated at a supplied
millisecond timestamp, false and never a throw for a malformed token), which
the next definitions model.  What the routes themselves contribute — the
`{digits: 6, period: 30}` configuration and the `Date.now() + 30000`
evaluation timestamp — is embedded directly from src/index.js. -/

/-- Modelled from the spec: the otpauth library's HMAC-based digest of the
shared secret and the time counter is code outside src/; it is modelled as
an unspecified but fixed computable digest.  Only its existence, not its
value, matters to the properties proved below. -/
def totpDigest (secret : String) (counter : Nat) : Nat :=
  secret.toList.foldl (fun a ch => (a * 31 + ch.toNat) % 1000003) (counter % 1000003)

/-- Modelled from the spec: the token for a timestamp is the digest of the
secret and the counter `timestampMs / (period * 1000)`, reduced to `digits`
decimal digits and zero-padded to exactly `digits` characters. -/
def totpGenerate (secret : String) (digits period timestampMs : Nat) : String :=
  String.mk (((List.range digits).reverse).map
    (fun i => Char.ofNat (48 + totpDigest secret (timestampMs / (period * 1000)) / 10 ^ i % 10)))

/-- Modelled from the spec: `validate` returns true exactly when the token
matches the one generated for the supplied timestamp's step; any other
string, malformed ones included, yields false, and the function is total so
it never throws. -/
def totpValidate (secret : String) (digits period : Nat) (token : String)
    (timestampMs : Nat) : Bool :=
  token = totpGenerate secret digits period timestampMs

/-- The `/validate` response `{isValid, timestamp}`. -/
structure ValidateResponse where
  isValid : Nat
  timestamp : Nat
deriving Repr, DecidableEq

/-- The `/validate` route: 400 for a falsy `otp` query parameter, otherwise
a TOTP with `digits: 6, period: 30` is checked at `Date.now() + 30000` and
the response reports `isValid` as 1 or 0 together with that timestamp. -/
def validateRoute (totpSecret : String) (now : Nat) (otp : Option String) :
    Except ApiError ValidateResponse :=
  if !jsTruthy otp then .error ⟨400, "OTP (One-Time Password) is required"⟩
  else
    match otp with
    | none => .error ⟨400, "OTP (One-Time Password) is required"⟩
    | some token =>
      let timestamp := now + 30000
      .ok ⟨if totpValidate totpSecret 6 30 token timestamp then 1 else 0, timestamp⟩

/-- The `/create-key` route: 401 for a falsy `otp`, 401 for a token the
same `{digits: 6, period: 30}` TOTP rejects at `Date.now() + 30000`,
otherwise the freshly generated key record is saved and returned. -/
def createKeyRoute (keys : List ApiKey) (totpSecret : String) (now : Nat)
    (otp : Option String) (newId newKey : String) :
    Except ApiError (List ApiKey × ApiKey) :=
  if !jsTruthy otp then .error ⟨401, "OTP (One-Time Password) is required"⟩
  else
    match otp with
    | none => .error ⟨401, "OTP (One-Time Password) is required"⟩
    | some token =>
      if !totpValidate totpSecret 6 30 token (now + 30000) then
        .error ⟨401, "Invalid OTP (One-Time Password)"⟩
      else
        match saveKey keys ⟨newKey, newId⟩ with
        | .error e => .error e
        | .ok ks => .ok (ks, ⟨newKey, newId⟩)

/-! ## Health (src/index.js lines 150-162) -/

/-- The `/health` status: `uptime < 60 ? 'healthy' : 'degraded'`.  The
fractional-second uptime of `process.uptime()` is modelled as a rational. -/
def healthStatus (uptime : ℚ) : String :=
  if uptime < 60 then "healthy" else "degraded"

/-! ## Derived notions used by the claims -/

/-- At most one stored document per `fileName`. -/
def nameUnique (files : List File) : Prop :=
  (files.map File.fileName).Pairwise (fun a b => a ≠ b)

instance (files : List File) : Decidable (nameUnique files) :=
  inferInstanceAs (Decidable ((files.map File.fileName).Pairwise _))


/-! ## Helper lemmas -/

theorem generateRandomId_length (n : Nat) (rand : Nat → Nat) :
    (generateRandomId n rand).length = n := by
  unfold generateRandomId
  show ((List.range n).map _).length = n
  simp

theorem totpGenerate_length (secret : String) (digits period t : Nat) :
    (totpGenerate secret digits period t).length = digits := by
  unfold totpGenerate
  show (((List.range digits).reverse).map _).length = digits
  simp

/-- Inversion of a successful upload: the handler appended exactly one fresh
record, echoed the generated id, the generated id collided with no stored
id, and either overwrite was requested or no document bore the name. -/
theorem uploadOp_ok_inv {files : List File} {n c fid : String} {ow : Bool}
    {files' : List File} {rid : String}
    (h : uploadOp files n ow c fid = .ok (files', rid)) :
    files' = files ++ [⟨fid, n, c⟩] ∧ rid = fid
    ∧ (∀ f ∈ files, f.id ≠ fid)
    ∧ (ow = true ∨ findOneByFileName files n = none) := by
  unfold uploadOp saveFile at h
  by_cases hc : (findOneByFileName files n).isSome && !ow
  · simp [hc] at h
  · rw [if_neg hc] at h
    by_cases ha : files.any (fun g => g.id == fid)
    · simp [ha] at h
    · simp [ha] at h
      have hfresh : ∀ f ∈ files, f.id ≠ fid := by
        intro f hf
        have := List.any_eq_false.mp (Bool.eq_false_iff.mpr ha) f hf
        simpa using this
      refine ⟨h.1.symm, h.2.symm, hfresh, ?_⟩
      cases ow with
      | true => exact Or.inl rfl
      | false =>
        right
        rw [Bool.not_false, Bool.and_true] at hc
        exact Option.not_isSome_iff_eq_none.mp (fun hs => hc (by simpa using hs))

theorem nameUnique_append_of_fresh {files : List File} {f : File}
    (hu : nameUnique files) (hf : ∀ g ∈ files, g.fileName ≠ f.fileName) :
    nameUnique (files ++ [f]) := by
  unfold nameUnique at hu ⊢
  rw [List.map_append, List.pairwise_append]
  refine ⟨hu, List.pairwise_singleton _ _, ?_⟩
  intro a ha b hb
  simp only [List.map_cons, List.map_nil, List.mem_singleton] at hb
  subst hb
  rcases List.mem_map.mp ha with ⟨g, hg, rfl⟩
  exact hf g hg

theorem updateFirst_map_fileName (files : List File) (ident c : String) :
    (updateFirst files ident c).map File.fileName = files.map File.fileName := by
  induction files with
  | nil => rfl
  | cons f fs ih =>
    unfold updateFirst
    by_cases h : matchesIdentifier f ident = true
    · simp [h]
    · simp [h, ih]

theorem updateFirst_append (pre : List File) (f : File) (post : List File)
    (ident c : String) (hpre : ∀ g ∈ pre, matchesIdentifier g ident = false)
    (hf : matchesIdentifier f ident = true) :
    updateFirst (pre ++ f :: post) ident c
      = pre ++ { f with fileContent := c } :: post := by
  induction pre with
  | nil => simp [updateFirst, hf]
  | cons g gs ih =>
    have hg := hpre g (by simp)
    simp only [List.cons_append]
    unfold updateFirst
    rw [if_neg (by simp [hg])]
    rw [ih (fun x hx => hpre x (by simp [hx]))]

theorem removeFirst_sublist (files : List File) (ident : String) :
    List.Sublist (removeFirst files ident) files := by
  induction files with
  | nil => simp [removeFirst]
  | cons f fs ih =>
    unfold removeFirst
    by_cases h : matchesIdentifier f ident = true
    · simp [h]
    · rw [if_neg h]
      exact List.Sublist.cons₂ f ih

/-! ## Claims -/

/-- C1, counterexample: starting from a name-unique collection holding one
document named "n", uploading name "n" with overwrite set to true succeeds
and leaves two stored documents sharing fileName "n" — the upload inserts a
new record and the schema carries no uniqueness constraint on fileName. -/
theorem upload_overwrite_breaks_name_uniqueness :
    nameUnique [⟨"abcde", "n", "c1"⟩]
    ∧ uploadOp [⟨"abcde", "n", "c1"⟩] "n" true "c2" "fghij"
        = .ok ([⟨"abcde", "n", "c1"⟩, ⟨"fghij", "n", "c2"⟩], "fghij")
    ∧ ¬ nameUnique [⟨"abcde", "n", "c1"⟩, ⟨"fghij", "n", "c2"⟩] :=
  ⟨by decide, rfl, by decide⟩

/-- C1, amended: starting from a collection with at most one document per
name, every document-store operation preserves that property except upload
with overwrite=true onto an existing name: upload with overwrite=false,
upload of a name not currently stored, edit, and delete all keep the
collection name-unique. -/
theorem ops_preserve_name_uniqueness (files : List File) (hu : nameUnique files) :
    (∀ n c fid files' rid, uploadOp files n false c fid = .ok (files', rid) →
        nameUnique files')
    ∧ (∀ n ow c fid files' rid, uploadOp files n ow c fid = .ok (files', rid) →
        findOneByFileName files n = none → nameUnique files')
    ∧ (∀ ident c files' msg, editRoute files (some ident) (some c) = .ok (files', msg) →
        nameUnique files')
    ∧ (∀ ident files' msg, deleteRoute files (some ident) = .ok (files', msg) →
        nameUnique files') := by
  have hupload : ∀ n ow c fid files' rid, uploadOp files n ow c fid = .ok (files', rid) →
      findOneByFileName files n = none → nameUnique files' := by
    intro n ow c fid files' rid h hnone
    obtain ⟨rfl, -, -, -⟩ := uploadOp_ok_inv h
    refine nameUnique_append_of_fresh hu (fun g hg => ?_)
    have := List.find?_eq_none.mp hnone g hg
    simpa using this
  refine ⟨?_, hupload, ?_, ?_⟩
  · intro n c fid files' rid h
    rcases (uploadOp_ok_inv h).2.2.2 with how | hnone
    · exact absurd how (by simp)
    · exact hupload n false c fid files' rid h hnone
  · intro ident c files' msg h
    unfold editRoute at h
    cases hfind : findOneByIdentifier files ident with
    | none => simp [hfind] at h
    | some f₀ =>
      simp only [hfind, Except.ok.injEq, Prod.mk.injEq] at h
      have hfs : updateFirst files ident c = files' := h.1
      subst hfs
      unfold nameUnique
      rw [updateFirst_map_fileName]
      exact hu
  · intro ident files' msg h
    unfold deleteRoute at h
    cases hfind : findOneByIdentifier files ident with
    | none => simp [hfind] at h
    | some f₀ =>
      simp only [hfind, Except.ok.injEq, Prod.mk.injEq] at h
      have hfs : removeFirst files ident = files' := h.1
      subst hfs
      unfold nameUnique at hu ⊢
      exact hu.sublist (List.Sublist.map _ (removeFirst_sublist files ident))

/-- C1, witness for the amended theorem: a delete on a concrete two-document
name-unique collection keeps it name-unique. -/
theorem ops_preserve_name_uniqueness_witness :
    nameUnique [File.mk "fghij" "m" "c2"] :=
  (ops_preserve_name_uniqueness [⟨"abcde", "n", "c1"⟩, ⟨"fghij", "m", "c2"⟩]
      (by decide)).2.2.2
    "abcde" [⟨"fghij", "m", "c2"⟩] "File deleted successfully" rfl

/-- C2: uploading name n with overwrite=true when a document named n already
exists inserts a brand-new record carrying the freshly generated
5-character id, returns that id, and appends the record after all existing
ones, so the pre-existing record named n is neither removed nor updated and
its id is untouched. -/
theorem upload_overwrite_new_record (files : List File) (n c : String)
    (rand : Nat → Nat) (f₀ : File)
    (hex : findOneByFileName files n = some f₀)
    (hfresh : ∀ f ∈ files, f.id ≠ generateFileId rand) :
    uploadOp files n true c (generateFileId rand)
      = .ok (files ++ [⟨generateFileId rand, n, c⟩], generateFileId rand)
    ∧ (generateFileId rand).length = 5
    ∧ f₀ ∈ files ++ [⟨generateFileId rand, n, c⟩] := by
  have hany : files.any (fun g => g.id == generateFileId rand) = false := by
    rw [List.any_eq_false]
    intro f hf
    simp [hfresh f hf]
  refine ⟨?_, generateRandomId_length 5 rand, ?_⟩
  · unfold uploadOp saveFile
    simp [hany]
  · exact List.mem_append_left _ (List.mem_of_find?_eq_some hex)

/-- C2, witness: a concrete overwrite-true upload onto an occupied name
inserts the new record and echoes the generated id. -/
theorem upload_overwrite_new_record_witness :
    uploadOp [⟨"abcde", "n", "c1"⟩] "n" true "c2" (generateFileId (fun _ => 1))
      = .ok ([⟨"abcde", "n", "c1"⟩, ⟨generateFileId (fun _ => 1), "n", "c2"⟩],
             generateFileId (fun _ => 1)) :=
  (upload_overwrite_new_record [⟨"abcde", "n", "c1"⟩] "n" "c2" (fun _ => 1)
    ⟨"abcde", "n", "c1"⟩ rfl (by decide)).1

/-- C3: uploading name n with overwrite=false when a document named n exists
fails with 409 "File name already exists", the collection — and with it the
existing document's id, fileName and fileContent — is unchanged, and no
record is inserted. -/
theorem upload_conflict_unchanged (files : List File) (n c fid : String) (f₀ : File)
    (hex : findOneByFileName files n = some f₀) :
    uploadOp files n false c fid = .error ⟨409, "File name already exists"⟩
    ∧ uploadStore files n false c fid = files
    ∧ f₀ ∈ files := by
  have hs : (findOneByFileName files n).isSome = true := by rw [hex]; rfl
  refine ⟨?_, ?_, List.mem_of_find?_eq_some hex⟩
  · unfold uploadOp
    simp [hs]
  · unfold uploadStore uploadOp
    simp [hs]

/-- C3, witness: a concrete overwrite-false upload onto an occupied name
yields the 409 conflict. -/
theorem upload_conflict_unchanged_witness :
    uploadOp [⟨"abcde", "n", "c1"⟩] "n" false "c2" "fghij"
      = .error ⟨409, "File name already exists"⟩ :=
  (upload_conflict_unchanged [⟨"abcde", "n", "c1"⟩] "n" "c2" "fghij"
    ⟨"abcde", "n", "c1"⟩ rfl).1

/-- C4, counterexample: with a pre-existing document whose id is "n", an
upload under the explicit name "n" — a name no stored document bears —
succeeds, yet resolving "n" returns the pre-existing document, because the
OR lookup matches its id first in natural order; its content differs from
the uploaded content. -/
theorem resolve_after_upload_counterexample :
    findOneByFileName [⟨"n", "other", "x"⟩] "n" = none
    ∧ uploadOp [⟨"n", "other", "x"⟩] "n" false "c" "abcde"
        = .ok ([⟨"n", "other", "x"⟩, ⟨"abcde", "n", "c"⟩], "abcde")
    ∧ (findOneByIdentifier [⟨"n", "other", "x"⟩, ⟨"abcde", "n", "c"⟩] "n").map
        File.fileContent = some "x"
    ∧ some "x" ≠ some "c" :=
  ⟨rfl, rfl, rfl, by decide⟩

/-- C4, amended: a successful upload of content c under an explicit name n
that occurs nowhere in the store — neither as a fileName nor as an id — and
whose generated id likewise occurs nowhere, resolves by n and by the
returned id to the new document with content c; resolution queries
id == identifier OR fileName == identifier. -/
theorem upload_then_resolve (files : List File) (n c fid : String) (ow : Bool)
    (hn : ∀ f ∈ files, f.id ≠ n ∧ f.fileName ≠ n)
    (hi : ∀ f ∈ files, f.id ≠ fid ∧ f.fileName ≠ fid) :
    ∃ files', uploadOp files n ow c fid = .ok (files', fid)
      ∧ (findOneByIdentifier files' n).map File.fileContent = some c
      ∧ (findOneByIdentifier files' fid).map File.fileContent = some c := by
  have hfind : findOneByFileName files n = none := by
    apply List.find?_eq_none.mpr
    intro f hf
    simp [(hn f hf).2]
  have hany : files.any (fun g => g.id == fid) = false := by
    rw [List.any_eq_false]
    intro f hf
    simp [(hi f hf).1]
  have hmiss : files.find? (fun f => matchesIdentifier f n) = none := by
    apply List.find?_eq_none.mpr
    intro f hf
    simp [matchesIdentifier, (hn f hf).1, (hn f hf).2]
  have hmiss2 : files.find? (fun f => matchesIdentifier f fid) = none := by
    apply List.find?_eq_none.mpr
    intro f hf
    simp [matchesIdentifier, (hi f hf).1, (hi f hf).2]
  refine ⟨files ++ [⟨fid, n, c⟩], ?_, ?_, ?_⟩
  · unfold uploadOp saveFile
    simp [hfind, hany]
  · unfold findOneByIdentifier
    rw [List.find?_append, hmiss]
    simp [matchesIdentifier]
  · unfold findOneByIdentifier
    rw [List.find?_append, hmiss2]
    simp [matchesIdentifier]

/-- C4, witness for the amended theorem: on a concrete store whose sole
document shares no identifier with the upload, both resolutions find the
fresh content. -/
theorem upload_then_resolve_witness :
    ∃ files', uploadOp [⟨"zzzzz", "other", "x"⟩] "notes" false "hello" "abcde"
        = .ok (files', "abcde")
      ∧ (findOneByIdentifier files' "notes").map File.fileContent = some "hello"
      ∧ (findOneByIdentifier files' "abcde").map File.fileContent = some "hello" :=
  upload_then_resolve [⟨"zzzzz", "other", "x"⟩] "notes" "hello" "abcde" false
    (by decide) (by decide)

/-- C5: an edit request whose identifier resolves to no stored document by
id or fileName fails with 404 "File not found" and leaves the collection
unchanged; one whose identifier resolves replaces only the first matching
document's fileContent, keeping its id and fileName, and keeps every other
document — those before and after the match — exactly as they were. -/
theorem edit_spec (files : List File) (ident c : String) :
    (findOneByIdentifier files ident = none →
        editRoute files (some ident) (some c) = .error ⟨404, "File not found"⟩
        ∧ editStore files (some ident) (some c) = files)
    ∧ (∀ f₀, findOneByIdentifier files ident = some f₀ →
        editRoute files (some ident) (some c)
          = .ok (updateFirst files ident c, "File updated successfully")
        ∧ ∃ pre post, files = pre ++ f₀ :: post
            ∧ updateFirst files ident c = pre ++ { f₀ with fileContent := c } :: post
            ∧ ∀ g ∈ pre, matchesIdentifier g ident = false) := by
  constructor
  · intro hnone
    constructor
    · unfold editRoute
      simp [hnone]
    · unfold editStore editRoute
      simp [hnone]
  · intro f₀ hsome
    constructor
    · unfold editRoute
      simp [hsome]
    · obtain ⟨hp, pre, post, heq, hpre⟩ := List.find?_eq_some.mp hsome
      have hpre2 : ∀ g ∈ pre, matchesIdentifier g ident = false := by
        intro g hg
        have := hpre g hg
        simpa using this
      refine ⟨pre, post, heq, ?_, hpre2⟩
      rw [heq]
      exact updateFirst_append pre f₀ post ident c hpre2 hp

/-- C5, witness: editing a concrete one-document store by name rewrites only
the content. -/
theorem edit_spec_witness :
    editRoute [⟨"abcde", "notes", "hello"⟩] (some "notes") (some "world")
      = .ok ([⟨"abcde", "notes", "world"⟩], "File updated successfully") :=
  ((edit_spec [⟨"abcde", "notes", "hello"⟩] "notes" "world").2
    ⟨"abcde", "notes", "hello"⟩ rfl).1

/-- C6: the authentication gate resolves the credential from the header
first — a truthy header makes the query parameter irrelevant — and fails
with 401 "API key is required" when both carriers are falsy, with 401
"Invalid API key" when the resolved credential matches no stored key's
secret; on any gate failure the protected operation never runs, so the
server state is unchanged. -/
theorem authenticate_gate_spec (st : ServerState) (hdr qry : Option String) :
    (∀ h, hdr = some h → h ≠ "" →
        ∀ qry₂, authenticate st.keys hdr qry = authenticate st.keys hdr qry₂)
    ∧ (jsTruthy hdr = false → jsTruthy qry = false →
        authenticate st.keys hdr qry = some ⟨401, "API key is required"⟩)
    ∧ (∀ k, jsOrStr hdr qry = some k → k ≠ "" →
        st.keys.find? (fun a => a.key == k) = none →
        authenticate st.keys hdr qry = some ⟨401, "Invalid API key"⟩)
    ∧ (∀ op e, authenticate st.keys hdr qry = some e →
        applyProtected st hdr qry op = st) := by
  refine ⟨?_, ?_, ?_, ?_⟩
  · intro h hh hne qry₂
    subst hh
    unfold authenticate jsOrStr
    have ht : jsTruthy (some h) = true := by simp [jsTruthy, hne]
    rw [if_pos ht, if_pos ht]
  · intro h1 h2
    unfold authenticate jsOrStr
    rw [h1]
    simp only [if_neg (by simp : ¬ (false = true))]
    cases qry with
    | none => rfl
    | some s =>
      have hs : s = "" := by
        by_contra hne
        simp [jsTruthy, hne] at h2
      subst hs
      rfl
  · intro k hk hne hfind
    unfold authenticate
    rw [hk]
    simp [hne, hfind]
  · intro op e he
    unfold applyProtected
    rw [he]

/-- C6, witness: with one stored key of secret "s1", a request carrying a
wrong header credential and the valid secret in the query is still rejected
with "Invalid API key" — the header is taken first. -/
theorem authenticate_gate_spec_witness :
    authenticate (ServerState.mk [] [⟨"s1", "0x000001"⟩]).keys
        (some "wrong") (some "s1") = some ⟨401, "Invalid API key"⟩ :=
  (authenticate_gate_spec ⟨[], [⟨"s1", "0x000001"⟩]⟩ (some "wrong") (some "s1")).2.2.1
    "wrong" rfl (by decide) rfl

/-- C7: the standalone validate route and the key-creation route both
evaluate a 6-digit, 30-second-period TOTP at the timestamp now + 30000
milliseconds — 30 seconds in the future — and report that timestamp; an
absent token produces an error response rather than a throw (the routes are
total functions), and a token of the wrong length is never judged valid. -/
theorem totp_validation_spec (totpSecret : String) (now : Nat)
    (keys : List ApiKey) (newId newKey : String) :
    (validateRoute totpSecret now none
        = .error ⟨400, "OTP (One-Time Password) is required"⟩
      ∧ createKeyRoute keys totpSecret now none newId newKey
        = .error ⟨401, "OTP (One-Time Password) is required"⟩)
    ∧ (∀ token r, validateRoute totpSecret now (some token) = .ok r →
        r.timestamp = now + 30000
        ∧ r.isValid = if totpValidate totpSecret 6 30 token (now + 30000) then 1 else 0)
    ∧ (∀ token, token ≠ "" → totpValidate totpSecret 6 30 token (now + 30000) = false →
        createKeyRoute keys totpSecret now (some token) newId newKey
          = .error ⟨401, "Invalid OTP (One-Time Password)"⟩)
    ∧ (∀ token t, token.length ≠ 6 → totpValidate totpSecret 6 30 token t = false) := by
  refine ⟨⟨rfl, rfl⟩, ?_, ?_, ?_⟩
  · intro token r h
    unfold validateRoute at h
    by_cases ht : token = ""
    · subst ht
      simp [jsTruthy] at h
    · rw [if_neg (by simp [jsTruthy, ht])] at h
      simp only [Except.ok.injEq] at h
      rw [← h]
      exact ⟨rfl, rfl⟩
  · intro token hne hval
    unfold createKeyRoute
    rw [if_neg (by simp [jsTruthy, hne])]
    simp [hval]
  · intro token t hlen
    have hne : token ≠ totpGenerate totpSecret 6 30 t := by
      intro he
      exact hlen (he ▸ totpGenerate_length totpSecret 6 30 t)
    simp [totpValidate, hne]

/-- C7, witness: a malformed token is rejected by key creation at a
concrete secret and time. -/
theorem totp_validation_spec_witness :
    createKeyRoute [] "SECRET" 1000 (some "junk") "0x000001" "k1"
      = .error ⟨401, "Invalid OTP (One-Time Password)"⟩ :=
  (totp_validation_spec "SECRET" 1000 [] "0x000001" "k1").2.2.1 "junk"
    (by decide) (by decide)

/-- C8, counterexample: with one stored key whose secret is "supersecret",
the key-listing result includes that secret — the projection keeps the key
field, which is exactly the bearer secret presented for authentication. -/
theorem list_keys_includes_secret :
    listKeysOp [⟨"supersecret", "0x000001"⟩] = [⟨"supersecret", "0x000001"⟩]
    ∧ (listKeysOp [⟨"supersecret", "0x000001"⟩]).map KeyListing.key = ["supersecret"]
    ∧ ¬ (∀ e ∈ listKeysOp [ApiKey.mk "supersecret" "0x000001"], e.key ≠ "supersecret") :=
  ⟨rfl, rfl, by decide⟩

/-- C8, amended: the document-listing result carries only id and fileName
and is independent of every document's content — rewriting all contents
leaves it unchanged — while the key-listing result does include each stored
key's secret, in store order. -/
theorem listings_projection (files : List File) (keys : List ApiKey)
    (newContent : File → String) :
    listFilesOp (files.map (fun f => { f with fileContent := newContent f }))
      = listFilesOp files
    ∧ (listKeysOp keys).map KeyListing.key = keys.map ApiKey.key := by
  constructor
  · unfold listFilesOp
    rw [List.map_map]
    rfl
  · unfold listKeysOp
    rw [List.map_map]
    rfl

/-- C9: evaluating the raw-read route on a store holding a document named
"notes" with content "hello" shows that the response body is the
JSON-encoded string — quotation marks included — and not the raw stored
content itself, because the handler answers through res.json. -/
theorem raw_read_body_is_json_encoded :
    rawReadRoute [⟨"abcde", "notes", "hello"⟩] (some "notes") = .ok "\"hello\""
    ∧ "\"hello\"" ≠ "hello"
    ∧ jsonEncodeString "hello" ≠ "hello" :=
  ⟨rfl, by decide, by decide⟩

/-- C10: the health route reports "healthy" exactly when the process uptime
is strictly below 60 seconds and "degraded" for every uptime of 60 seconds
or more. -/
theorem health_status_spec (uptime : ℚ) :
    (healthStatus uptime = "healthy" ↔ uptime < 60)
    ∧ (60 ≤ uptime → healthStatus uptime = "degraded") := by
  constructor
  · constructor
    · intro he
      by_contra h
      simp only [healthStatus, if_neg h] at he
      exact absurd he (by decide)
    · intro h
      simp [healthStatus, if_pos h]
  · intro h60
    simp [healthStatus, if_neg (not_lt.mpr h60)]

/-- C10, witness: a 75-second uptime reports "degraded". -/
theorem health_status_spec_witness :
    healthStatus 75 = "degraded" :=
  (health_status_spec 75).2 (by norm_num)

end RawPasta
